import Mathlib

/-!
# Verification of the llm_cost_exporter polling core

Shallow embedding of the Rust sources of `llm_cost_exporter`
(`src/main.rs`, `src/tracker.rs`, `src/providers/openai.rs`) and proofs
about them.

Modelling conventions:
* Rust `f64` values are modelled as exact rationals (`ℚ`); the decimal
  rate literals of the source are the corresponding exact rationals.
* `u64` token and request counts are modelled as `ℕ`.
* Fallible Rust code (`Result<T, E>`) is modelled as `Except`.
* The prometheus `GaugeVec` state is modelled as a partial map from the
  label tuple to the current gauge value (`Option ℚ`, `none` = series
  absent); `set` writes the key, `Registry::new` starts empty.
-/

namespace LlmCostExporter

/-- Struct `LLMUsage` (main.rs lines 39-45): the normalized usage record. -/
structure LLMUsage where
  cost_usd : ℚ
  prompt_tokens : ℕ
  completion_tokens : ℕ
  request_count : ℕ
  deriving Repr, DecidableEq

/-- The derived `Default` of `LLMUsage`: all fields zero. -/
def LLMUsage.default : LLMUsage :=
  { cost_usd := 0, prompt_tokens := 0, completion_tokens := 0, request_count := 0 }

/-- Enum `MonitorError` (main.rs lines 22-32).  The payloads of `ApiError` and
`AwsError` are opaque external-library errors, modelled as unit; the
`ConfigError` payload is the formatted `anyhow` message. -/
inductive MonitorError where
  | ApiError
  | AwsError
  | InvalidResponse
  | ConfigError (msg : String)
  deriving Repr, DecidableEq

/-- Function `calculate_openai_cost` (tracker.rs lines 40-47): per-model rate table,
`(prompt * prompt_rate + completion * completion_rate) / 1000`, unknown
model yields `0.0`. -/
def calculate_openai_cost (model : String) (usage : LLMUsage) : ℚ :=
  if model = "gpt-4" then
    ((usage.prompt_tokens : ℚ) * (3/100) + (usage.completion_tokens : ℚ) * (6/100)) / 1000
  else if model = "gpt-3.5-turbo" then
    ((usage.prompt_tokens : ℚ) * (15/10000) + (usage.completion_tokens : ℚ) * (2/1000)) / 1000
  else
    0

/-- One prometheus gauge family, modelled as a partial map from the label
tuple to the currently published value (`none` = series absent). -/
def GaugeMap (K : Type) := K → Option ℚ

/-- Method chain `GaugeVec::with_label_values(..).set(v)`: overwrite the value at one
label tuple, leaving every other series untouched. -/
def GaugeMap.set {K : Type} [DecidableEq K] (g : GaugeMap K) (k : K) (v : ℚ) : GaugeMap K :=
  fun k' => if k' = k then some v else g k'

/-- The three gauge families of `LLMMetrics` (main.rs lines 80-84):
`llm_cost_usd{provider,model}`, `llm_tokens{provider,model,type}`,
`llm_requests{provider,model}`.  This is the mutable registry state the
polling loop writes into. -/
structure Registry where
  cost : GaugeMap (String × String)
  tokens : GaugeMap (String × String × String)
  requests : GaugeMap (String × String)

/-- State after `Registry::new()` followed by `LLMMetrics::new` (main.rs 216-217): no
series exist until the first `set`. -/
def Registry.empty : Registry :=
  { cost := fun _ => none, tokens := fun _ => none, requests := fun _ => none }

/-- Method `LLMMetrics::update` (main.rs lines 117-130): sets the cost gauge, the
prompt- and completion-token gauges and the request gauge for the given
`(provider, model)` labels to the record's values (gauge `set`, not
increment). -/
def LLMMetrics.update (reg : Registry) (provider model : String) (usage : LLMUsage) : Registry :=
  { cost := reg.cost.set (provider, model) usage.cost_usd
    tokens :=
      (reg.tokens.set (provider, model, "prompt") (usage.prompt_tokens : ℚ)).set
        (provider, model, "completion") (usage.completion_tokens : ℚ)
    requests := reg.requests.set (provider, model) (usage.request_count : ℚ) }

/-! ## Monitors (main.rs lines 47-78)

Each monitor's `get_usage` body is literally `Ok(LLMUsage::default())`.
For the Bedrock monitor we additionally record how many STS
role-assumption exchanges the call performs: its body contains no STS
call at all, so that count is zero. -/

/-- Struct `OpenAIMonitor` (main.rs lines 47-49). -/
structure OpenAIMonitor where
  api_key : String

/-- The Bedrock runtime client value held by `BedrockMonitor`: either the
ambient/default-credentials client or one built from static credentials
obtained by a single `assume_role` exchange (main.rs lines 168-186).
`expiration` is the credential expiry instant, in seconds, when present. -/
inductive BedrockClient where
  | defaultCreds
  | staticCreds (access_key secret_key : String)
      (session_token : Option String) (expiration : Option ℕ)
  deriving Repr, DecidableEq

/-- Struct `BedrockMonitor` (main.rs lines 51-53). -/
structure BedrockMonitor where
  client : BedrockClient

/-- Struct `ClaudeMonitor` (main.rs lines 55-57). -/
structure ClaudeMonitor where
  api_key : String

/-- Impl block `impl LLMMonitor for OpenAIMonitor` (main.rs lines 59-64). -/
def OpenAIMonitor.get_usage (_ : OpenAIMonitor) : Except MonitorError LLMUsage :=
  .ok LLMUsage.default

/-- Impl block `impl LLMMonitor for BedrockMonitor` (main.rs lines 66-71), with the
number of STS role-assumption exchanges the call performs recorded as the
second component.  The body is `Ok(LLMUsage::default())`: it consults
neither the stored credentials nor a clock and performs no STS call, so
the exchange count of every fetch is `0`. -/
def BedrockMonitor.get_usage_traced (_ : BedrockMonitor) :
    Except MonitorError LLMUsage × ℕ :=
  (.ok LLMUsage.default, 0)

/-- Method `BedrockMonitor::get_usage`, result only. -/
def BedrockMonitor.get_usage (m : BedrockMonitor) : Except MonitorError LLMUsage :=
  m.get_usage_traced.1

/-- Impl block `impl LLMMonitor for ClaudeMonitor` (main.rs lines 73-78). -/
def ClaudeMonitor.get_usage (_ : ClaudeMonitor) : Except MonitorError LLMUsage :=
  .ok LLMUsage.default

/-! ## Bedrock client creation (main.rs lines 10-20 and 149-188) -/

/-- Struct `AssumeRoleConfig` (main.rs lines 15-20). -/
structure AssumeRoleConfig where
  enabled : Bool
  role_arn : String
  session_name : String

/-- Struct `BedrockConfig` (main.rs lines 10-13). -/
structure BedrockConfig where
  assume_role : AssumeRoleConfig

/-- The credentials object inside an STS `assume_role` response; every
field the SDK marks optional is an `Option` (main.rs lines 164-176). -/
structure StsCredentials where
  access_key_id : Option String
  secret_access_key : Option String
  session_token : Option String
  expiration : Option ℕ

/-- The STS `assume_role` response: `credentials` is optional
(main.rs line 164). -/
structure StsResponse where
  credentials : Option StsCredentials

/-- The outcome of one `sts_client.assume_role().send()` network call:
either a response or a transport/service error message. -/
def StsOutcome := Except String StsResponse

/-- Function `create_bedrock_client` (main.rs lines 149-188), with the number of
STS role-assumption exchanges performed recorded as the second component.
When `assume_role.enabled` is false the STS path is skipped entirely and
the ambient-credentials client is returned (0 exchanges); when it is true
exactly one `assume_role().send()` is issued (whatever its outcome) and
the static-credentials client is built from the response, failing with
`ConfigError` on a missing response field. -/
def create_bedrock_client (config : BedrockConfig) (sts : StsOutcome) :
    Except MonitorError BedrockClient × ℕ :=
  if config.assume_role.enabled then
    (match sts with
      | .error e => .error (.ConfigError e)
      | .ok assumed_role =>
        match assumed_role.credentials with
        | none => .error (.ConfigError "No credentials in STS response")
        | some creds =>
          match creds.access_key_id with
          | none => .error (.ConfigError "No access key in credentials")
          | some access_key =>
            match creds.secret_access_key with
            | none => .error (.ConfigError "No secret key in credentials")
            | some secret_key =>
              .ok (.staticCreds access_key secret_key
                    creds.session_token creds.expiration), 1)
  else
    (.ok .defaultCreds, 0)

/-! ## Metric descriptor registration (main.rs lines 86-115)

`LLMMetrics::new` builds the three gauge families and registers each with
the prometheus registry, `unwrap`-ing the result.  The prometheus
`Registry::register` rejects a collector whose descriptor is already
registered (`AlreadyReg`); the `unwrap` turns that rejection into a
process-aborting panic.  The registry's descriptor state is modelled as
the list of registered metric names, and the panic as the `Except`
error. -/

/-- Method `prometheus::Registry::register`: fails when a collector with the
same descriptor is already registered, otherwise records it. -/
def registryRegister (st : List String) (name : String) : Except String (List String) :=
  if name ∈ st then .error "duplicate metrics collector registration attempted"
  else .ok (st ++ [name])

/-- Constructor `LLMMetrics::new` (main.rs lines 86-115) seen as descriptor
registration: registers `llm_cost_usd`, `llm_tokens` and `llm_requests`
in order; any rejection is `unwrap`-ed into a fatal abort, modelled as
the error branch. -/
def llmMetricsNew (st : List String) : Except String (List String) := do
  let st ← registryRegister st "llm_cost_usd"
  let st ← registryRegister st "llm_tokens"
  let st ← registryRegister st "llm_requests"
  .ok st

/-! ## The polling loop (main.rs lines 228-243) -/

/-- The body of one tick of the monitoring loop (main.rs lines 231-242),
parametrised by the three `get_usage` results: each provider's update is
performed exactly under `if let Ok(usage) = ...`, with the label values
the string literals of the source. -/
def tickUpdate (openaiRes bedrockRes claudeRes : Except MonitorError LLMUsage)
    (reg : Registry) : Registry :=
  let reg := match openaiRes with
    | .ok usage => LLMMetrics.update reg "openai" "gpt-4" usage
    | .error _ => reg
  let reg := match bedrockRes with
    | .ok usage => LLMMetrics.update reg "bedrock" "claude-2" usage
    | .error _ => reg
  match claudeRes with
    | .ok usage => LLMMetrics.update reg "anthropic" "claude-2" usage
    | .error _ => reg

/-- One tick with the monitors of `main` (main.rs lines 228-243): the
fetch results are the ones the stub monitors actually produce. -/
def mainTick (o : OpenAIMonitor) (b : BedrockMonitor) (c : ClaudeMonitor)
    (reg : Registry) : Registry :=
  tickUpdate o.get_usage b.get_usage c.get_usage reg

/-- The loop run over a finite list of ticks, each tick given by the
three fetch outcomes of that tick. -/
def runTicks (outcomes : List (Except MonitorError LLMUsage × Except MonitorError LLMUsage ×
    Except MonitorError LLMUsage)) (reg : Registry) : Registry :=
  outcomes.foldl (fun acc t => tickUpdate t.1 t.2.1 t.2.2 acc) reg

/-- The `(provider, model)` label pairs fixed by the loop's source text
(main.rs lines 233, 237, 241). -/
def configuredPairs : List (String × String) :=
  [("openai", "gpt-4"), ("bedrock", "claude-2"), ("anthropic", "claude-2")]

/-! ## Startup (main.rs lines 190-226)

`main` reads `OPENAI_API_KEY`, builds the Bedrock client (with
`assume_role.enabled = false` hardcoded), reads `ANTHROPIC_API_KEY`,
creates the registry and metrics, and only then enters the loop; any `?`
failure before that returns the error from `main`, which exits the
process with a non-zero status.  `std::env::var` on an absent variable
yields `VarError::NotPresent`, displayed as
"environment variable not found". -/

/-- The `BedrockConfig` literal of `main` (main.rs lines 198-204). -/
def mainBedrockConfig : BedrockConfig :=
  { assume_role := { enabled := false, role_arn := "", session_name := "" } }

/-- The monitors `main` holds when startup succeeds. -/
structure Monitors where
  openai : OpenAIMonitor
  bedrock : BedrockMonitor
  claude : ClaudeMonitor

/-- Expression `std::env::var(name).map_err(|e| ConfigError(anyhow!("{name} not set: {e}")))`
as written at main.rs lines 194-195 and 211-212. -/
def envVarOrConfigError (env : String → Option String) (name : String) :
    Except MonitorError String :=
  match env name with
  | some k => .ok k
  | none => .error (.ConfigError (name ++ " not set: environment variable not found"))

/-- The startup phase of `main` (main.rs lines 190-217), parametrised by
the process environment and the STS call outcome.  Mirrors the source's
order: `OPENAI_API_KEY`, then the Bedrock client, then
`ANTHROPIC_API_KEY`. -/
def mainStartup (env : String → Option String) (sts : StsOutcome) :
    Except MonitorError Monitors := do
  let openai_key ← envVarOrConfigError env "OPENAI_API_KEY"
  let bedrock_client ← (create_bedrock_client mainBedrockConfig sts).1
  let anthropic_key ← envVarOrConfigError env "ANTHROPIC_API_KEY"
  .ok { openai := { api_key := openai_key }
        bedrock := { client := bedrock_client }
        claude := { api_key := anthropic_key } }

/-- Function `main` over a finite number of ticks: a startup failure is returned
(non-zero process exit) before any tick runs; otherwise the registry
starts empty and the loop runs. -/
def mainRun (env : String → Option String) (sts : StsOutcome) (nTicks : ℕ) :
    Except MonitorError Registry :=
  match mainStartup env sts with
  | .error e => .error e
  | .ok ms =>
    .ok (Nat.rec Registry.empty (fun _ reg => mainTick ms.openai ms.bedrock ms.claude reg) nTicks)

/-! ## Direct-API provider sub-call responses (providers/openai.rs) -/

/-- Struct `OpenAIUsageResponse` (providers/openai.rs lines 9-12): the usage
endpoint's accrued spend, reported in cents. -/
structure OpenAIUsageResponse where
  total_usage : ℚ

/-- Struct `OpenAISubscriptionResponse` (providers/openai.rs lines 14-18). -/
structure OpenAISubscriptionResponse where
  hard_limit_usd : ℚ
  has_payment_method : Bool

/-- The spec's `UsageRecord` (§3): the normalized record including the
optional `remaining_balance` (absent on pay-as-you-go accounts). -/
structure UsageRecord where
  cost_usd : ℚ
  prompt_tokens : ℕ
  completion_tokens : ℕ
  request_count : ℕ
  remaining_balance : Option ℚ

/-- Modelled from the spec: the code combining the two direct-API
sub-calls into a `UsageRecord` is not present under `src/` — only the two
fetchers (`get_usage_data`, `get_subscription_data`) and their tests are.
Spec §4.1/§8: spend reported in cents is converted to USD
(`total_usage_cents=5000` yields `cost_usd=50.0`), and
`remaining_balance = hard_limit − current_spend` exactly when a payment
method is on file, else `None` (never zero, never an error); token
breakdowns are not reported by these endpoints, so token fields are
zero. -/
def openaiDeriveUsage (usage : OpenAIUsageResponse)
    (sub : OpenAISubscriptionResponse) : UsageRecord :=
  let cost_usd := usage.total_usage / 100
  { cost_usd := cost_usd
    prompt_tokens := 0
    completion_tokens := 0
    request_count := 0
    remaining_balance :=
      if sub.has_payment_method then some (sub.hard_limit_usd - cost_usd) else none }

/-- The four gauge series published for one `(provider, model)` pair:
cost, prompt tokens, completion tokens, requests. -/
def Registry.providerGauges (reg : Registry) (p m : String) :
    Option ℚ × Option ℚ × Option ℚ × Option ℚ :=
  (reg.cost (p, m), reg.tokens (p, m, "prompt"),
    reg.tokens (p, m, "completion"), reg.requests (p, m))

/-- The gauge tuple `LLMMetrics::update` publishes for a record. -/
def LLMUsage.gaugeTuple (r : LLMUsage) : Option ℚ × Option ℚ × Option ℚ × Option ℚ :=
  (some r.cost_usd, some (r.prompt_tokens : ℚ),
    some (r.completion_tokens : ℚ), some (r.request_count : ℚ))

theorem GaugeMap.set_self {K : Type} [DecidableEq K] (g : GaugeMap K) (k : K) (v : ℚ) :
    g.set k v k = some v := if_pos rfl

theorem GaugeMap.set_other {K : Type} [DecidableEq K] (g : GaugeMap K) (k : K) (v : ℚ)
    (k' : K) (h : k' ≠ k) : g.set k v k' = g k' := if_neg h

theorem update_gauges_self (reg : Registry) (p m : String) (r : LLMUsage) :
    (LLMMetrics.update reg p m r).providerGauges p m = r.gaugeTuple := by
  have hpc : (p, m, "prompt") ≠ (p, m, "completion") := by
    intro hk
    rw [Prod.mk.injEq, Prod.mk.injEq] at hk
    exact absurd hk.2.2 (by decide)
  unfold Registry.providerGauges LLMMetrics.update LLMUsage.gaugeTuple
  dsimp only
  rw [GaugeMap.set_self, GaugeMap.set_self, GaugeMap.set_other _ _ _ _ hpc,
    GaugeMap.set_self, GaugeMap.set_self]

theorem update_gauges_other (reg : Registry) (p m : String) (r : LLMUsage)
    (p' m' : String) (h : (p', m') ≠ (p, m)) :
    (LLMMetrics.update reg p m r).providerGauges p' m' = reg.providerGauges p' m' := by
  have hcdiff : ∀ k k' : String, (p', m', k) ≠ (p, m, k') := by
    intro k k' hk
    rw [Prod.mk.injEq, Prod.mk.injEq] at hk
    exact h (by rw [Prod.mk.injEq]; exact ⟨hk.1, hk.2.1⟩)
  unfold Registry.providerGauges LLMMetrics.update
  dsimp only
  rw [GaugeMap.set_other _ _ _ _ h, GaugeMap.set_other _ _ _ _ (hcdiff "prompt" "completion"),
    GaugeMap.set_other _ _ _ _ (hcdiff "prompt" "prompt"),
    GaugeMap.set_other _ _ _ _ (hcdiff "completion" "completion"),
    GaugeMap.set_other _ _ _ _ (hcdiff "completion" "prompt"),
    GaugeMap.set_other _ _ _ _ h]

/-- The per-provider effect of one loop-body pass (main.rs lines 231-242)
on the openai gauges. -/
theorem tickUpdate_gauges_openai (r1 r2 r3 : Except MonitorError LLMUsage) (reg : Registry) :
    (tickUpdate r1 r2 r3 reg).providerGauges "openai" "gpt-4" =
      (match r1 with
        | .ok u => u.gaugeTuple
        | .error _ => reg.providerGauges "openai" "gpt-4") := by
  have hb : (("openai", "gpt-4") : String × String) ≠ ("bedrock", "claude-2") := by decide
  have ha : (("openai", "gpt-4") : String × String) ≠ ("anthropic", "claude-2") := by decide
  unfold tickUpdate
  cases r1 <;> cases r2 <;> cases r3 <;>
    simp only [update_gauges_other _ _ _ _ _ _ hb, update_gauges_other _ _ _ _ _ _ ha,
      update_gauges_self]

/-- The per-provider effect of one loop-body pass on the bedrock gauges. -/
theorem tickUpdate_gauges_bedrock (r1 r2 r3 : Except MonitorError LLMUsage) (reg : Registry) :
    (tickUpdate r1 r2 r3 reg).providerGauges "bedrock" "claude-2" =
      (match r2 with
        | .ok u => u.gaugeTuple
        | .error _ => reg.providerGauges "bedrock" "claude-2") := by
  have ho : (("bedrock", "claude-2") : String × String) ≠ ("openai", "gpt-4") := by decide
  have ha : (("bedrock", "claude-2") : String × String) ≠ ("anthropic", "claude-2") := by decide
  unfold tickUpdate
  cases r1 <;> cases r2 <;> cases r3 <;>
    simp only [update_gauges_other _ _ _ _ _ _ ho, update_gauges_other _ _ _ _ _ _ ha,
      update_gauges_self]

/-- The per-provider effect of one loop-body pass on the anthropic gauges. -/
theorem tickUpdate_gauges_anthropic (r1 r2 r3 : Except MonitorError LLMUsage) (reg : Registry) :
    (tickUpdate r1 r2 r3 reg).providerGauges "anthropic" "claude-2" =
      (match r3 with
        | .ok u => u.gaugeTuple
        | .error _ => reg.providerGauges "anthropic" "claude-2") := by
  have ho : (("anthropic", "claude-2") : String × String) ≠ ("openai", "gpt-4") := by decide
  have hb : (("anthropic", "claude-2") : String × String) ≠ ("bedrock", "claude-2") := by decide
  unfold tickUpdate
  cases r1 <;> cases r2 <;> cases r3 <;>
    simp only [update_gauges_other _ _ _ _ _ _ ho, update_gauges_other _ _ _ _ _ _ hb,
      update_gauges_self]

/-! ## Claims -/

/-- C1: if a provider's fetch returns an error in a tick, the registry
update for that provider is not performed, so all four gauge series
previously published under that provider's `(provider, model)` labels are
unchanged after the tick (no zeroing on error).  The fetch outcomes of
the other providers are arbitrary. -/
theorem failed_poll_leaves_gauges (r1 r2 r3 : Except MonitorError LLMUsage) (reg : Registry) :
    (∀ e, r1 = .error e →
      (tickUpdate r1 r2 r3 reg).providerGauges "openai" "gpt-4" =
        reg.providerGauges "openai" "gpt-4") ∧
    (∀ e, r2 = .error e →
      (tickUpdate r1 r2 r3 reg).providerGauges "bedrock" "claude-2" =
        reg.providerGauges "bedrock" "claude-2") ∧
    (∀ e, r3 = .error e →
      (tickUpdate r1 r2 r3 reg).providerGauges "anthropic" "claude-2" =
        reg.providerGauges "anthropic" "claude-2") := by
  refine ⟨fun e he => ?_, fun e he => ?_, fun e he => ?_⟩
  · rw [tickUpdate_gauges_openai, he]
  · rw [tickUpdate_gauges_bedrock, he]
  · rw [tickUpdate_gauges_anthropic, he]

theorem failed_poll_leaves_gauges_witness :
    (Except.error MonitorError.ApiError : Except MonitorError LLMUsage) =
      .error MonitorError.ApiError ∧
    (tickUpdate (.error MonitorError.ApiError) (.ok ⟨1, 2, 3, 4⟩) (.ok ⟨5, 6, 7, 8⟩)
        (LLMMetrics.update Registry.empty "openai" "gpt-4" ⟨9, 10, 11, 12⟩)).providerGauges
        "openai" "gpt-4" =
      (LLMMetrics.update Registry.empty "openai" "gpt-4" ⟨9, 10, 11, 12⟩).providerGauges
        "openai" "gpt-4" :=
  ⟨rfl, (failed_poll_leaves_gauges _ _ _ _).1 MonitorError.ApiError rfl⟩

/-- C2: the cost model maps `(model, prompt_tokens, completion_tokens)` to
`(prompt * prompt_rate + completion * completion_rate) / 1000` over the
static rate table; for `gpt-4` (rates 0.03 / 0.06 per 1k tokens) 1000
prompt and 1000 completion tokens cost exactly 0.09 USD, and every model
name outside the table yields cost 0 for all token counts — the function
is total, so no input can produce an error. -/
theorem cost_model_rates (usage : LLMUsage) :
    calculate_openai_cost "gpt-4"
      { cost_usd := 0, prompt_tokens := 1000, completion_tokens := 1000, request_count := 0 } =
      9/100 ∧
    (∀ model : String, model ≠ "gpt-4" → model ≠ "gpt-3.5-turbo" →
      calculate_openai_cost model usage = 0) := by
  constructor
  · norm_num [calculate_openai_cost]
  · intro model h1 h2
    simp [calculate_openai_cost, h1, h2]

theorem cost_model_rates_witness :
    ("o3" : String) ≠ "gpt-4" ∧ ("o3" : String) ≠ "gpt-3.5-turbo" ∧
    calculate_openai_cost "o3"
      { cost_usd := 1, prompt_tokens := 500, completion_tokens := 700, request_count := 2 } = 0 :=
  ⟨by decide, by decide, (cost_model_rates _).2 "o3" (by decide) (by decide)⟩

/-- C3: registry gauges are last-write-wins snapshots: after
`update(provider, model, r)` the cost, prompt-token, completion-token and
request gauges at that key hold exactly `r`'s values, whatever was stored
before (the prior registry is arbitrary, so any number of earlier updates
is overwritten, never summed), and every series under any other
`(provider, model)` key is untouched — one series per key, holding the
latest values. -/
theorem registry_last_write_wins (reg : Registry) (p m : String) (r : LLMUsage) :
    ((LLMMetrics.update reg p m r).cost (p, m) = some r.cost_usd ∧
      (LLMMetrics.update reg p m r).tokens (p, m, "prompt") = some (r.prompt_tokens : ℚ) ∧
      (LLMMetrics.update reg p m r).tokens (p, m, "completion") = some (r.completion_tokens : ℚ) ∧
      (LLMMetrics.update reg p m r).requests (p, m) = some (r.request_count : ℚ)) ∧
    (∀ p' m' : String, (p', m') ≠ (p, m) →
      (LLMMetrics.update reg p m r).providerGauges p' m' = reg.providerGauges p' m') := by
  constructor
  · have h := update_gauges_self reg p m r
    exact ⟨congrArg (fun t => t.1) h, congrArg (fun t => t.2.1) h,
      congrArg (fun t => t.2.2.1) h, congrArg (fun t => t.2.2.2) h⟩
  · intro p' m' hne
    exact update_gauges_other reg p m r p' m' hne

theorem registry_last_write_wins_witness :
    (("x", "y") : String × String) ≠ ("openai", "gpt-4") ∧
    (LLMMetrics.update (LLMMetrics.update Registry.empty "openai" "gpt-4" ⟨1, 2, 3, 4⟩)
        "openai" "gpt-4" ⟨5, 6, 7, 8⟩).cost ("openai", "gpt-4") = some 5 ∧
    (LLMMetrics.update (LLMMetrics.update Registry.empty "openai" "gpt-4" ⟨1, 2, 3, 4⟩)
        "openai" "gpt-4" ⟨5, 6, 7, 8⟩).providerGauges "x" "y" =
      (LLMMetrics.update Registry.empty "openai" "gpt-4" ⟨1, 2, 3, 4⟩).providerGauges "x" "y" :=
  ⟨by decide, (registry_last_write_wins _ _ _ _).1.1,
    (registry_last_write_wins _ _ _ _).2 "x" "y" (by decide)⟩

/-- C4: direct-API provider derivation, modelled from the spec (the
combining code is absent from `src/`): spend reported in cents is
converted to USD (`total_usage = 5000` cents yields `cost_usd = 50`), and
`remaining_balance = hard_limit − current_spend` is produced exactly when
`has_payment_method` is true (so a 100 USD hard limit with 50 USD spend
leaves 50); when `has_payment_method` is false the balance is `none` for
every spend value — never zero and never an error (the derivation is
total). -/
theorem balance_derivation (usage : OpenAIUsageResponse) (sub : OpenAISubscriptionResponse) :
    (openaiDeriveUsage ⟨5000⟩ ⟨100, true⟩).cost_usd = 50 ∧
    (openaiDeriveUsage ⟨5000⟩ ⟨100, true⟩).remaining_balance = some 50 ∧
    (openaiDeriveUsage usage sub).cost_usd = usage.total_usage / 100 ∧
    (sub.has_payment_method = false →
      (openaiDeriveUsage usage sub).remaining_balance = none) ∧
    (sub.has_payment_method = true →
      (openaiDeriveUsage usage sub).remaining_balance =
        some (sub.hard_limit_usd - usage.total_usage / 100)) := by
  refine ⟨by norm_num [openaiDeriveUsage], by norm_num [openaiDeriveUsage], rfl, ?_, ?_⟩
  · intro h
    simp [openaiDeriveUsage, h]
  · intro h
    simp [openaiDeriveUsage, h]

theorem balance_derivation_witness :
    ({ hard_limit_usd := 100, has_payment_method := false } :
        OpenAISubscriptionResponse).has_payment_method = false ∧
    (openaiDeriveUsage ⟨5000⟩
        { hard_limit_usd := 100, has_payment_method := false }).remaining_balance = none :=
  ⟨rfl, (balance_derivation ⟨5000⟩ _).2.2.2.1 rfl⟩

/-- C5: provider isolation within one tick: for every assignment of
success/failure outcomes to the three configured providers, a succeeding
provider's gauges hold its new record after the tick, a failing
provider's gauges are exactly as before (absent if never written), and
the loop is not aborted — the remaining ticks run on the tick's result
whatever the outcomes were. -/
theorem tick_provider_isolation (r1 r2 r3 : Except MonitorError LLMUsage) (reg : Registry) :
    (∀ u, r1 = .ok u →
      (tickUpdate r1 r2 r3 reg).providerGauges "openai" "gpt-4" = u.gaugeTuple) ∧
    (∀ u, r2 = .ok u →
      (tickUpdate r1 r2 r3 reg).providerGauges "bedrock" "claude-2" = u.gaugeTuple) ∧
    (∀ u, r3 = .ok u →
      (tickUpdate r1 r2 r3 reg).providerGauges "anthropic" "claude-2" = u.gaugeTuple) ∧
    (∀ e, r1 = .error e →
      (tickUpdate r1 r2 r3 reg).providerGauges "openai" "gpt-4" =
        reg.providerGauges "openai" "gpt-4") ∧
    (∀ e, r2 = .error e →
      (tickUpdate r1 r2 r3 reg).providerGauges "bedrock" "claude-2" =
        reg.providerGauges "bedrock" "claude-2") ∧
    (∀ e, r3 = .error e →
      (tickUpdate r1 r2 r3 reg).providerGauges "anthropic" "claude-2" =
        reg.providerGauges "anthropic" "claude-2") ∧
    (∀ rest reg0, runTicks ((r1, r2, r3) :: rest) reg0 =
      runTicks rest (tickUpdate r1 r2 r3 reg0)) := by
  refine ⟨fun u hu => ?_, fun u hu => ?_, fun u hu => ?_,
    fun e he => ?_, fun e he => ?_, fun e he => ?_, fun rest reg0 => rfl⟩
  · rw [tickUpdate_gauges_openai, hu]
  · rw [tickUpdate_gauges_bedrock, hu]
  · rw [tickUpdate_gauges_anthropic, hu]
  · rw [tickUpdate_gauges_openai, he]
  · rw [tickUpdate_gauges_bedrock, he]
  · rw [tickUpdate_gauges_anthropic, he]

theorem tick_provider_isolation_witness :
    (Except.ok (⟨1, 2, 3, 4⟩ : LLMUsage) : Except MonitorError LLMUsage) = .ok ⟨1, 2, 3, 4⟩ ∧
    (tickUpdate (.error .InvalidResponse) (.ok ⟨1, 2, 3, 4⟩) (.ok ⟨5, 6, 7, 8⟩)
        Registry.empty).providerGauges "bedrock" "claude-2" =
      (⟨1, 2, 3, 4⟩ : LLMUsage).gaugeTuple ∧
    (tickUpdate (.error .InvalidResponse) (.ok ⟨1, 2, 3, 4⟩) (.ok ⟨5, 6, 7, 8⟩)
        Registry.empty).providerGauges "openai" "gpt-4" =
      Registry.empty.providerGauges "openai" "gpt-4" :=
  ⟨rfl, (tick_provider_isolation _ _ _ _).2.1 _ rfl,
    (tick_provider_isolation _ _ _ _).2.2.2.1 .InvalidResponse rfl⟩

/-- C6: registering the three metric descriptors (`llm_cost_usd`,
`llm_tokens`, `llm_requests`) on a fresh registry succeeds; registering
the same set against the same registry a second time in one process run
is rejected, and the `unwrap` in `LLMMetrics::new` makes that rejection a
fatal abort. -/
theorem register_descriptors_twice_rejected :
    llmMetricsNew [] = .ok ["llm_cost_usd", "llm_tokens", "llm_requests"] ∧
    llmMetricsNew ["llm_cost_usd", "llm_tokens", "llm_requests"] =
      .error "duplicate metrics collector registration attempted" := by
  constructor <;> rfl

/-- C7: a missing direct-provider API key aborts the process with a
`ConfigError` whose message names the variable, and this happens before
the polling loop: the returned error is the same for every tick count
`n`, so no tick ever runs.  Mirrors main.rs lines 193-196 (OPENAI) and
210-213 (ANTHROPIC); the Bedrock step in between cannot fail because
`main` hardcodes `assume_role.enabled = false`. -/
theorem missing_api_key_fatal :
    (∀ (env : String → Option String) (sts : StsOutcome) (n : ℕ),
      env "OPENAI_API_KEY" = none →
      mainRun env sts n =
        .error (.ConfigError ("OPENAI_API_KEY" ++ " not set: environment variable not found"))) ∧
    (∀ (env : String → Option String) (sts : StsOutcome) (n : ℕ) (k : String),
      env "OPENAI_API_KEY" = some k → env "ANTHROPIC_API_KEY" = none →
      mainRun env sts n =
        .error (.ConfigError ("ANTHROPIC_API_KEY" ++ " not set: environment variable not found"))) := by
  constructor
  · intro env sts n h
    simp only [mainRun, mainStartup, envVarOrConfigError, h]
    rfl
  · intro env sts n k h1 h2
    simp only [mainRun, mainStartup, envVarOrConfigError, h1, h2, create_bedrock_client,
      mainBedrockConfig]
    rfl

theorem missing_api_key_fatal_witness :
    ((fun _ : String => (none : Option String)) "OPENAI_API_KEY" = none) ∧
    mainRun (fun _ => none) (.error "network unreachable") 3 =
      .error (.ConfigError ("OPENAI_API_KEY" ++ " not set: environment variable not found")) :=
  ⟨rfl, missing_api_key_fatal.1 (fun _ => none) (.error "network unreachable") 3 rfl⟩

/-- C8 counterexample: take a Bedrock monitor holding static credentials
whose lease expired at instant 100 and perform a fetch at instant 200,
after `expires_at`.  The fetch performs zero STS role-assumption
exchanges, not the exactly-one renewal the claim requires: the body of
`get_usage` (main.rs lines 68-70) consults neither the clock nor the
stored credentials. -/
theorem lease_renewal_counterexample :
    (100 : ℕ) < 200 ∧
    (BedrockMonitor.get_usage_traced
      { client := .staticCreds "AKIAEXAMPLE" "secret" none (some 100) }).2 ≠ 1 :=
  ⟨by norm_num, by decide⟩

/-- C8 amended: every Bedrock fetch performs zero role-assumption
exchanges and no expiry check, so two consecutive fetches within the
validity window trigger no second exchange (vacuously at most one); the
only exchange happens eagerly inside `create_bedrock_client` — exactly
one when assume-role is enabled, none when disabled — and `main`'s
hardcoded configuration disables it, so a fetch after `expires_at`
triggers no renewal at all. -/
theorem lease_exchange_amended :
    (∀ m : BedrockMonitor, m.get_usage_traced.2 = 0) ∧
    (∀ (config : BedrockConfig) (sts : StsOutcome),
      (create_bedrock_client config sts).2 =
        if config.assume_role.enabled then 1 else 0) ∧
    (∀ sts : StsOutcome, (create_bedrock_client mainBedrockConfig sts).2 = 0) := by
  refine ⟨fun m => rfl, fun config sts => ?_, fun sts => rfl⟩
  by_cases h : config.assume_role.enabled <;> simp [create_bedrock_client, h]

/-- A registry publishes no series outside the startup-configured label
pairs. -/
def Registry.OnlyConfigured (reg : Registry) : Prop :=
  ∀ p m : String, (p, m) ∉ configuredPairs →
    reg.cost (p, m) = none ∧ reg.requests (p, m) = none ∧
      ∀ k : String, reg.tokens (p, m, k) = none

theorem onlyConfigured_empty : Registry.empty.OnlyConfigured :=
  fun _ _ _ => ⟨rfl, rfl, fun _ => rfl⟩

theorem onlyConfigured_update (reg : Registry) (h : reg.OnlyConfigured)
    (p m : String) (hp : (p, m) ∈ configuredPairs) (r : LLMUsage) :
    (LLMMetrics.update reg p m r).OnlyConfigured := by
  intro p' m' hnot
  have hne : (p', m') ≠ (p, m) := fun he => hnot (he ▸ hp)
  have hck : ∀ k k' : String, (p', m', k) ≠ (p, m, k') := by
    intro k k' hk
    rw [Prod.mk.injEq, Prod.mk.injEq] at hk
    exact hne (by rw [Prod.mk.injEq]; exact ⟨hk.1, hk.2.1⟩)
  obtain ⟨hc, hr, ht⟩ := h p' m' hnot
  refine ⟨?_, ?_, fun k => ?_⟩
  · unfold LLMMetrics.update
    dsimp only
    rw [GaugeMap.set_other _ _ _ _ hne]
    exact hc
  · unfold LLMMetrics.update
    dsimp only
    rw [GaugeMap.set_other _ _ _ _ hne]
    exact hr
  · unfold LLMMetrics.update
    dsimp only
    rw [GaugeMap.set_other _ _ _ _ (hck k "completion"),
      GaugeMap.set_other _ _ _ _ (hck k "prompt")]
    exact ht k

theorem onlyConfigured_tick (r1 r2 r3 : Except MonitorError LLMUsage) (reg : Registry)
    (h : reg.OnlyConfigured) : (tickUpdate r1 r2 r3 reg).OnlyConfigured := by
  have hO : (("openai", "gpt-4") : String × String) ∈ configuredPairs := by decide
  have hB : (("bedrock", "claude-2") : String × String) ∈ configuredPairs := by decide
  have hA : (("anthropic", "claude-2") : String × String) ∈ configuredPairs := by decide
  unfold tickUpdate
  cases r1 <;> cases r2 <;> cases r3 <;> dsimp only <;>
    repeat' first
      | exact h
      | exact hO
      | exact hB
      | exact hA
      | apply onlyConfigured_update

theorem onlyConfigured_runTicks
    (outcomes : List (Except MonitorError LLMUsage × Except MonitorError LLMUsage ×
      Except MonitorError LLMUsage)) :
    ∀ reg : Registry, reg.OnlyConfigured → (runTicks outcomes reg).OnlyConfigured := by
  induction outcomes with
  | nil => exact fun reg h => h
  | cons t ts ih => exact fun reg h => ih _ (onlyConfigured_tick t.1 t.2.1 t.2.2 reg h)

/-- C9: the label set is fixed at startup: starting from the empty
registry, after any finite sequence of ticks with any fetch outcomes,
every gauge series whose `(provider, model)` labels are outside the
startup-configured pairs is still absent, so the registry's key set is
always a subset of the configured pairs; the labels the loop writes are
the source's string literals, never derived from response content. -/
theorem label_set_fixed
    (outcomes : List (Except MonitorError LLMUsage × Except MonitorError LLMUsage ×
      Except MonitorError LLMUsage)) (p m : String)
    (h : (p, m) ∉ configuredPairs) :
    (runTicks outcomes Registry.empty).cost (p, m) = none ∧
    (runTicks outcomes Registry.empty).requests (p, m) = none ∧
    ∀ k : String, (runTicks outcomes Registry.empty).tokens (p, m, k) = none :=
  onlyConfigured_runTicks outcomes Registry.empty onlyConfigured_empty p m h

theorem label_set_fixed_witness :
    (("evil", "model") : String × String) ∉ configuredPairs ∧
    (runTicks [(.ok ⟨1, 2, 3, 4⟩, .error .ApiError, .ok ⟨5, 6, 7, 8⟩)]
      Registry.empty).cost ("evil", "model") = none :=
  ⟨by decide, (label_set_fixed _ "evil" "model" (by decide)).1⟩

/-- C10: every monitor's `get_usage` is a stub returning `Ok` of the
all-zero default record (main.rs lines 59-78) — no implementation can
return an error — so with the monitors `main` builds, every tick updates
all three configured providers' gauges with all-zero values. -/
theorem stub_monitors_always_zero (o : OpenAIMonitor) (b : BedrockMonitor)
    (c : ClaudeMonitor) (reg : Registry) :
    o.get_usage =
      .ok { cost_usd := 0, prompt_tokens := 0, completion_tokens := 0, request_count := 0 } ∧
    b.get_usage =
      .ok { cost_usd := 0, prompt_tokens := 0, completion_tokens := 0, request_count := 0 } ∧
    c.get_usage =
      .ok { cost_usd := 0, prompt_tokens := 0, completion_tokens := 0, request_count := 0 } ∧
    (∀ p m : String, (p, m) ∈ configuredPairs →
      (mainTick o b c reg).providerGauges p m = (some 0, some 0, some 0, some 0)) := by
  refine ⟨rfl, rfl, rfl, ?_⟩
  intro p m hm
  have hmain : mainTick o b c reg =
      tickUpdate (.ok LLMUsage.default) (.ok LLMUsage.default) (.ok LLMUsage.default) reg := rfl
  simp only [configuredPairs, List.mem_cons, List.not_mem_nil, or_false] at hm
  rcases hm with hpm | hpm | hpm <;>
    rw [Prod.mk.injEq] at hpm <;>
    obtain ⟨hp, hmm⟩ := hpm <;> subst hp <;> subst hmm
  · rw [hmain, tickUpdate_gauges_openai]
    simp [LLMUsage.gaugeTuple, LLMUsage.default]
  · rw [hmain, tickUpdate_gauges_bedrock]
    simp [LLMUsage.gaugeTuple, LLMUsage.default]
  · rw [hmain, tickUpdate_gauges_anthropic]
    simp [LLMUsage.gaugeTuple, LLMUsage.default]

theorem stub_monitors_always_zero_witness :
    (("openai", "gpt-4") : String × String) ∈ configuredPairs ∧
    (mainTick { api_key := "k1" } { client := .defaultCreds } { api_key := "k2" }
      Registry.empty).providerGauges "openai" "gpt-4" = (some 0, some 0, some 0, some 0) :=
  ⟨by decide,
    (stub_monitors_always_zero _ _ _ _).2.2.2 "openai" "gpt-4" (by decide)⟩

end LlmCostExporter
